import Mathlib

/-!
Verification of the gsbq ETL pipeline (src/gsbq/app.py) against its
natural-language specification.

The pipeline reads a 2-D grid of cell values from a spreadsheet
(get_sheet_data), converts it to a typed columnar table via a polars
row-oriented DataFrame construction (convert_data_to_dataframe), maps the
inferred column dtypes to BigQuery field types and provisions the
destination dataset and table if absent (create_dataset_if_not_exists,
create_table_if_not_exists), and submits an append-mode load job
(upload_to_bigquery).

The Normalizer delegates to the polars call
  pl.DataFrame(data[1:], schema=data[0], orient="row"),
so this embedding models the semantics of that construction:
  - cell values are JSON-shaped (string, integer, float, boolean, or None);
  - each column dtype is the least common supertype of the runtime dtypes
    of the values appearing at that position (strings are never parsed);
  - the first data row must have exactly as many cells as the header and
    no data row may be wider than the header; later rows shorter than the
    header are padded with nulls;
  - duplicate column names are rejected (the DataFrame unique-name
    invariant);
  - an empty input list fails immediately (the Python expression data[0]
    raises IndexError before polars is reached).
The inference window (polars infer_schema_length, default 100 rows) is not
modelled: inference scans every row, which coincides with polars for grids
of at most 100 data rows.
-/

namespace Gsbq

/-- Polars data types reachable in this pipeline: the dtypes polars can
infer for sheet cells plus the Date and Datetime dtypes that the schema
mapping in create_table_if_not_exists distinguishes. -/
inductive DType where
  | null
  | boolean
  | int64
  | float64
  | date
  | datetime
  | string
  deriving DecidableEq, Repr

/-- A raw spreadsheet cell as delivered by the Sheets values.get call:
a JSON string, number (integer or floating-point, the latter modelled
exactly as a rational), boolean, or an absent value (None / a missing
trailing cell). -/
inductive Cell where
  | s (v : String)
  | i (v : Int)
  | f (v : ℚ)
  | b (v : Bool)
  | null
  deriving DecidableEq, Repr

/-- The polars dtype of a single cell value. -/
def dtypeOf : Cell → DType
  | .s _ => .string
  | .i _ => .int64
  | .f _ => .float64
  | .b _ => .boolean
  | .null => .null

/-- Rank of a dtype in the supertype chain used by polars row-construction
inference. On the dtypes that arise from sheet cells this is the linear
chain Null < Boolean < Int64 < Float64 < String (String is the universal
supertype); Date and Datetime never arise from sheet cells. -/
def DType.rank : DType → Nat
  | .null => 0
  | .boolean => 1
  | .int64 => 2
  | .float64 => 3
  | .date => 4
  | .datetime => 5
  | .string => 6

/-- Least common supertype of two dtypes (polars get_supertype restricted
to the dtypes reachable from sheet cells, where the chain is linear and
the supertype is the maximum). -/
def supertype (a b : DType) : DType :=
  if a.rank ≤ b.rank then b else a

/-- Cast of a cell into a column of the given dtype, as performed by the
polars row builders: None stays null, booleans widen to integers 1 and 0,
integers widen to floats, and anything casts to its textual rendering when
the column dtype is String. The final wildcard is unreachable when the
target dtype is the supertype of the column's cells. -/
def castCell : Cell → DType → Cell
  | .null, _ => .null
  | .b v, .int64 => .i (if v then 1 else 0)
  | .i v, .float64 => .f (v : ℚ)
  | .b v, .float64 => .f (if v then 1 else 0)
  | .i v, .string => .s (toString v)
  | .f v, .string => .s (toString v)
  | .b v, .string => .s (if v then "true" else "false")
  | c, _ => c

/-- A typed, named column of the normalized table. -/
structure Column where
  name : String
  dtype : DType
  values : List Cell
  deriving DecidableEq, Repr

/-- The normalized table (a polars DataFrame): ordered named typed
columns plus the number of data rows. -/
structure DataFrame where
  columns : List Column
  height : Nat
  deriving DecidableEq, Repr

/-- Failure modes of the normalization step.
emptyGrid models the IndexError raised by data[0] on a zero-row grid;
invalidHeader models the rejection of a non-string entry in the schema
row; rowShapeMismatch models the polars ShapeError raised when the first
data row does not match the number of columns; columnCountMismatch models
the arity failure when a later row is wider than the header;
duplicateColumn models the polars DuplicateError for repeated column
names. -/
inductive NormError where
  | emptyGrid
  | invalidHeader
  | rowShapeMismatch
  | columnCountMismatch
  | duplicateColumn
  deriving DecidableEq, Repr

/-- Column names are taken from the header row verbatim; every header
cell must be a string. -/
def headerNames (headerRow : List Cell) : Option (List String) :=
  headerRow.mapM fun c =>
    match c with
    | .s v => some v
    | _ => none

/-- The cell of a data row at column position j; a missing trailing cell
reads as null, exactly as the polars row builder pads exhausted rows. -/
def cellAt (row : List Cell) (j : Nat) : Cell :=
  row.getD j .null

/-- Inferred dtype of column j: the least common supertype of the runtime
dtypes of the values at position j across all data rows. -/
def inferDtype (rows : List (List Cell)) (j : Nat) : DType :=
  rows.foldl (fun acc r => supertype acc (dtypeOf (cellAt r j))) .null

/-- Build column j: infer its dtype, then cast every value at position j
(null for a missing trailing cell) into that dtype. -/
def buildColumn (rows : List (List Cell)) (name : String) (j : Nat) : Column :=
  let dt := inferDtype rows j
  { name := name, dtype := dt, values := rows.map fun r => castCell (cellAt r j) dt }

/-- Build the columns for the given header names, one per position. -/
def buildColumns (rows : List (List Cell)) (names : List String) (j : Nat) : List Column :=
  match names with
  | [] => []
  | n :: ns => buildColumn rows n j :: buildColumns rows ns (j + 1)

/-- Model of convert_data_to_dataframe (src/gsbq/app.py lines 77-80),
that is of pl.DataFrame(data[1:], schema=data[0], orient="row"):
row 0 is the header, rows 1..n are data. An empty grid fails (data[0]
raises IndexError). With no data rows the result is a zero-row table
whose columns carry the null dtype. Otherwise the first data row must
have exactly the header's width, no row may be wider than the header,
the header names must be distinct, and each column is built by supertype
inference with null padding for short rows. -/
def convert_data_to_dataframe (data : List (List Cell)) : Except NormError DataFrame :=
  match data with
  | [] => .error .emptyGrid
  | headerRow :: rows =>
    match headerNames headerRow with
    | none => .error .invalidHeader
    | some names =>
      match rows with
      | [] =>
        if names.Nodup then
          .ok { columns := names.map fun n => { name := n, dtype := .null, values := [] },
                height := 0 }
        else
          .error .duplicateColumn
      | r0 :: _ =>
        if r0.length ≠ names.length then
          .error .rowShapeMismatch
        else if rows.any fun r => names.length < r.length then
          .error .columnCountMismatch
        else if names.Nodup then
          .ok { columns := buildColumns rows names 0, height := rows.length }
        else
          .error .duplicateColumn

/-- Model of get_sheet_data (src/gsbq/app.py lines 27-33): the response of
the Sheets values.get call either carries a values grid or omits it, and
the reader returns data.get("values", []). -/
def get_sheet_data (response : Option (List (List Cell))) : List (List Cell) :=
  response.getD []

/-- The BigQuery field type assigned to a polars dtype by the elif chain
in create_table_if_not_exists (src/gsbq/app.py lines 56-65). -/
def field_type : DType → String
  | .int64 => "INTEGER"
  | .float64 => "FLOAT"
  | .boolean => "BOOLEAN"
  | .datetime => "DATETIME"
  | .date => "DATE"
  | _ => "STRING"

/-- The destination schema computed by the loop in
create_table_if_not_exists (src/gsbq/app.py lines 53-66): one
(name, field type) pair per column, in column order. In this embedding a
column carries its name and dtype together, so the strict zip of
df.columns with df.dtypes is the plain map. -/
def bq_schema (df : DataFrame) : List (String × String) :=
  df.columns.map fun c => (c.name, field_type c.dtype)

/-- Remote warehouse state: the datasets that exist and the tables that
exist with their creation-time schemas. -/
structure BQState where
  datasets : List String
  tables : List (String × List (String × String))
  deriving DecidableEq, Repr

/-- Outcome of a fetch against the remote warehouse: the resource was
found, the service reported not-found, or the fetch failed for any other
reason (network, permission, quota). -/
inductive FetchResult where
  | success
  | notFound
  | failure (e : String)
  deriving DecidableEq, Repr

/-- Model of client.get_dataset: reports the dataset per the remote
state, unless a transient fault makes the fetch fail with some other
error. -/
def get_dataset (fault : Option String) (st : BQState) (dataset_id : String) : FetchResult :=
  match fault with
  | some e => .failure e
  | none => if dataset_id ∈ st.datasets then .success else .notFound

/-- Model of client.get_table, analogous to get_dataset. -/
def get_table (fault : Option String) (st : BQState) (table_id : String) : FetchResult :=
  match fault with
  | some e => .failure e
  | none => if table_id ∈ st.tables.map Prod.fst then .success else .notFound

/-- Model of create_dataset_if_not_exists (src/gsbq/app.py lines 36-44):
fetch the dataset; on not-found create it (the returned list records the
create calls performed); any other fetch error propagates. -/
def create_dataset_if_not_exists (fault : Option String) (st : BQState)
    (dataset_id : String) : Except String (BQState × List String) :=
  match get_dataset fault st dataset_id with
  | .success => .ok (st, [])
  | .notFound => .ok ({ st with datasets := dataset_id :: st.datasets }, [dataset_id])
  | .failure e => .error e

/-- Model of create_table_if_not_exists (src/gsbq/app.py lines 47-74):
compute the schema from the DataFrame, fetch the table; on not-found
create it with that schema (the returned list records the create calls
performed); any other fetch error propagates. -/
def create_table_if_not_exists (fault : Option String) (st : BQState)
    (table_id : String) (df : DataFrame) : Except String (BQState × List String) :=
  let schema := bq_schema df
  match get_table fault st table_id with
  | .success => .ok (st, [])
  | .notFound => .ok ({ st with tables := (table_id, schema) :: st.tables }, [table_id])
  | .failure e => .error e

/-- Configuration of a BigQuery load job as built in upload_to_bigquery. -/
structure LoadJobConfig where
  autodetect : Bool
  write_disposition : String
  deriving DecidableEq, Repr

/-- A submitted load job: its configuration, destination table and the
number of rows it appends. -/
structure LoadJob where
  config : LoadJobConfig
  destination : String
  rowCount : Nat
  deriving DecidableEq, Repr

/-- Terminal state reached by the remote load job. -/
inductive JobOutcome where
  | done
  | failedJob (e : String)
  deriving DecidableEq, Repr

/-- Model of upload_to_bigquery (src/gsbq/app.py lines 83-93): build a
job config with autodetect enabled and WRITE_APPEND disposition, submit
one load job for the DataFrame rows, and wait on job.result, so the
returned value is the job's terminal outcome. The first component lists
the jobs submitted by the call. -/
def upload_to_bigquery (outcome : JobOutcome) (df : DataFrame)
    (table_id : String) : List LoadJob × Except String Unit :=
  let job : LoadJob :=
    { config := { autodetect := true, write_disposition := "WRITE_APPEND" },
      destination := table_id,
      rowCount := df.height }
  ([job],
   match outcome with
   | .done => .ok ()
   | .failedJob e => .error e)

/-- Model of Python str.split(".") restricted to a single-character dot
separator, as used on the destination identifier. -/
def splitDotChars : List Char → List Char → List (List Char)
  | [], acc => [acc.reverse]
  | c :: cs, acc =>
    if c = '.' then acc.reverse :: splitDotChars cs [] else splitDotChars cs (c :: acc)

/-- Model of table_id.split("."). -/
def split_dot (s : String) : List String :=
  (splitDotChars s.data []).map List.asString

/-- Model of ".".join(parts). -/
def join_dot : List String → String
  | [] => ""
  | x :: xs => xs.foldl (fun a b => a ++ "." ++ b) x

/-- Model of the derivation of the dataset identifier at src/gsbq/app.py
line 107: dataset_id = ".".join(table_id.split(".")[:2]). -/
def dataset_id_of (table_id : String) : String :=
  join_dot ((split_dot table_id).take 2)

deriving instance DecidableEq for Except

/-- Whether a cell is an integer-typed value. -/
def Cell.isInt : Cell → Bool
  | .i _ => true
  | _ => false

/-- Whether a cell is a floating-point-typed value. -/
def Cell.isFloat : Cell → Bool
  | .f _ => true
  | _ => false

/-- Whether a cell is a text value. -/
def Cell.isText : Cell → Bool
  | .s _ => true
  | _ => false

/-- Whether a cell is an absent value. -/
def Cell.isNull : Cell → Bool
  | .null => true
  | _ => false

/-- Spec-side notion used by the type-inference claim: a string is
parseable as an integer when it is an optional minus sign followed by one
or more digits. -/
def isIntegerLiteral (s : String) : Bool :=
  match s.data with
  | [] => false
  | '-' :: ds => !ds.isEmpty && ds.all Char.isDigit
  | ds => ds.all Char.isDigit

/-- Concrete grid exercising the corrected type-inference statement: an
integer column, a column mixing a float with an integer, and a column
mixing text with an absent cell. -/
def c1Grid : List (List Cell) :=
  [[.s "a", .s "b", .s "c"],
   [.i 1, .f (mkRat 3 2), .s "x"],
   [.i 2, .i 3, .null]]

/-- The table produced by convert_data_to_dataframe on c1Grid. -/
def c1Table : DataFrame :=
  { columns :=
      [{ name := "a", dtype := .int64, values := [.i 1, .i 2] },
       { name := "b", dtype := .float64, values := [.f (mkRat 3 2), .f 3] },
       { name := "c", dtype := .string, values := [.s "x", .null] }],
    height := 2 }

/-! Helper lemmas about the supertype chain and the column builder. -/

theorem rank_supertype (a b : DType) : (supertype a b).rank = max a.rank b.rank := by
  cases a <;> cases b <;> rfl

theorem DType.rank_inj {a b : DType} (h : a.rank = b.rank) : a = b := by
  cases a <;> cases b <;> first | rfl | exact absurd h (by decide)

theorem DType.rank_le_six (d : DType) : d.rank ≤ 6 := by
  cases d <;> decide

theorem foldl_supertype_rank_le : ∀ (l : List DType) (a : DType) (n : Nat),
    (∀ d ∈ l, DType.rank d ≤ n) → a.rank ≤ n → (l.foldl supertype a).rank ≤ n
  | [], _, _, _, ha => ha
  | b :: l, a, n, hl, ha => by
      rw [List.foldl_cons]
      exact foldl_supertype_rank_le l (supertype a b) n
        (fun d hd => hl d (List.mem_cons_of_mem _ hd))
        (by rw [rank_supertype]; exact max_le ha (hl b (List.mem_cons_self b l)))

theorem rank_le_foldl_supertype_acc : ∀ (l : List DType) (a : DType),
    a.rank ≤ (l.foldl supertype a).rank
  | [], _ => le_refl _
  | b :: l, a => by
      rw [List.foldl_cons]
      calc a.rank ≤ (supertype a b).rank := by
            rw [rank_supertype]; exact le_max_left _ _
        _ ≤ _ := rank_le_foldl_supertype_acc l (supertype a b)

theorem rank_le_foldl_supertype_mem : ∀ (l : List DType) (a d : DType), d ∈ l →
    d.rank ≤ (l.foldl supertype a).rank
  | [], _, d, hd => absurd hd (List.not_mem_nil d)
  | b :: l, a, d, hd => by
      rw [List.foldl_cons]
      rcases List.mem_cons.mp hd with h | h
      · subst h
        calc d.rank ≤ (supertype a d).rank := by
              rw [rank_supertype]; exact le_max_right _ _
          _ ≤ _ := rank_le_foldl_supertype_acc l _
      · exact rank_le_foldl_supertype_mem l (supertype a b) d h

theorem inferDtype_eq_foldl (rows : List (List Cell)) (j : Nat) :
    inferDtype rows j = (rows.map fun r => dtypeOf (cellAt r j)).foldl supertype .null := by
  rw [inferDtype, List.foldl_map]

theorem inferDtype_rank_le (rows : List (List Cell)) (j n : Nat)
    (h : ∀ r ∈ rows, (dtypeOf (cellAt r j)).rank ≤ n) :
    (inferDtype rows j).rank ≤ n := by
  rw [inferDtype_eq_foldl]
  apply foldl_supertype_rank_le
  · intro d hd
    rcases List.mem_map.mp hd with ⟨r, hr, rfl⟩
    exact h r hr
  · exact Nat.zero_le n

theorem le_inferDtype_rank (rows : List (List Cell)) (j : Nat) (r : List Cell)
    (hr : r ∈ rows) : (dtypeOf (cellAt r j)).rank ≤ (inferDtype rows j).rank := by
  rw [inferDtype_eq_foldl]
  exact rank_le_foldl_supertype_mem _ _ _ (List.mem_map_of_mem _ hr)

theorem isInt_dtypeOf {c : Cell} (h : c.isInt = true) : dtypeOf c = .int64 := by
  cases c <;> simp_all [Cell.isInt, dtypeOf]

theorem isFloat_dtypeOf {c : Cell} (h : c.isFloat = true) : dtypeOf c = .float64 := by
  cases c <;> simp_all [Cell.isFloat, dtypeOf]

theorem isText_dtypeOf {c : Cell} (h : c.isText = true) : dtypeOf c = .string := by
  cases c <;> simp_all [Cell.isText, dtypeOf]

theorem dtypeOf_rank_le_two {c : Cell} (h : (c.isInt || c.isNull) = true) :
    (dtypeOf c).rank ≤ 2 := by
  cases c <;> simp_all [Cell.isInt, Cell.isNull, dtypeOf, DType.rank]

theorem dtypeOf_rank_le_three {c : Cell} (h : (c.isInt || c.isFloat || c.isNull) = true) :
    (dtypeOf c).rank ≤ 3 := by
  cases c <;> simp_all [Cell.isInt, Cell.isFloat, Cell.isNull, dtypeOf, DType.rank]

theorem inferDtype_int64 (rows : List (List Cell)) (j : Nat)
    (hall : ∀ r ∈ rows, ((cellAt r j).isInt || (cellAt r j).isNull) = true)
    (hsome : ∃ r ∈ rows, (cellAt r j).isInt = true) :
    inferDtype rows j = .int64 := by
  rcases hsome with ⟨r, hr, hint⟩
  apply DType.rank_inj
  apply le_antisymm
  · exact inferDtype_rank_le rows j 2 fun r hr => dtypeOf_rank_le_two (hall r hr)
  · have h := le_inferDtype_rank rows j r hr
    rw [isInt_dtypeOf hint] at h
    exact h

theorem inferDtype_float64 (rows : List (List Cell)) (j : Nat)
    (hall : ∀ r ∈ rows, ((cellAt r j).isInt || (cellAt r j).isFloat || (cellAt r j).isNull) = true)
    (hsome : ∃ r ∈ rows, (cellAt r j).isFloat = true) :
    inferDtype rows j = .float64 := by
  rcases hsome with ⟨r, hr, hfl⟩
  apply DType.rank_inj
  apply le_antisymm
  · exact inferDtype_rank_le rows j 3 fun r hr => dtypeOf_rank_le_three (hall r hr)
  · have h := le_inferDtype_rank rows j r hr
    rw [isFloat_dtypeOf hfl] at h
    exact h

theorem inferDtype_string (rows : List (List Cell)) (j : Nat)
    (hsome : ∃ r ∈ rows, (cellAt r j).isText = true) :
    inferDtype rows j = .string := by
  rcases hsome with ⟨r, hr, htx⟩
  apply DType.rank_inj
  apply le_antisymm
  · exact (inferDtype rows j).rank_le_six
  · have h := le_inferDtype_rank rows j r hr
    rw [isText_dtypeOf htx] at h
    exact h

theorem buildColumns_length (rows : List (List Cell)) :
    ∀ (names : List String) (j : Nat), (buildColumns rows names j).length = names.length
  | [], _ => rfl
  | _ :: ns, j => by
      simp [buildColumns, buildColumns_length rows ns (j + 1)]

theorem buildColumns_getElem? (rows : List (List Cell)) :
    ∀ (names : List String) (j k : Nat),
      (buildColumns rows names j)[k]? = (names[k]?).map fun n => buildColumn rows n (j + k)
  | [], j, k => by simp [buildColumns]
  | n :: ns, j, 0 => by simp [buildColumns]
  | n :: ns, j, k + 1 => by
      simp only [buildColumns, List.getElem?_cons_succ]
      rw [buildColumns_getElem? rows ns (j + 1) k]
      have : j + 1 + k = j + (k + 1) := by omega
      rw [this]

theorem convert_ok_cases (data : List (List Cell)) (t : DataFrame)
    (hok : convert_data_to_dataframe data = .ok t) :
    ∃ headerRow rows names, data = headerRow :: rows ∧
      headerNames headerRow = some names ∧ names.Nodup ∧
      ((rows = [] ∧
        t = { columns := names.map fun n => { name := n, dtype := .null, values := [] },
              height := 0 }) ∨
       ((∀ r ∈ rows, r.length ≤ names.length) ∧
        t = { columns := buildColumns rows names 0, height := rows.length })) := by
  cases data with
  | nil => simp [convert_data_to_dataframe] at hok
  | cons headerRow rows =>
    refine ⟨headerRow, rows, ?_⟩
    simp only [convert_data_to_dataframe] at hok
    split at hok
    · exact absurd hok (by simp)
    · next names heq =>
      refine ⟨names, rfl, heq, ?_⟩
      split at hok
      · split at hok
        · next hnd =>
          injection hok with h
          exact ⟨hnd, Or.inl ⟨rfl, h.symm⟩⟩
        · exact absurd hok (by simp)
      · next r0 rest =>
        split at hok
        · exact absurd hok (by simp)
        · split at hok
          · exact absurd hok (by simp)
          · next hany =>
            split at hok
            · next hnd =>
              injection hok with h
              refine ⟨hnd, Or.inr ⟨?_, h.symm⟩⟩
              intro r hr
              by_contra hlt
              apply hany
              rw [List.any_eq_true]
              exact ⟨r, hr, decide_eq_true (by omega)⟩
            · exact absurd hok (by simp)

/-! Claim theorems. -/

/-- C1 (amended): the Normalizer infers each column type from the runtime
type of the column's values, never by parsing text: a column whose
non-empty values are all integer-typed infers to integer; a column whose
non-empty values are numeric with at least one floating-point value
infers to floating-point; a column containing any text value infers to
string. -/
theorem C1_type_inference (data : List (List Cell)) (t : DataFrame)
    (hok : convert_data_to_dataframe data = .ok t) (j : Nat) (c : Column)
    (hc : t.columns[j]? = some c) :
    ((∀ r ∈ data.tail, ((cellAt r j).isInt || (cellAt r j).isNull) = true) →
      (∃ r ∈ data.tail, (cellAt r j).isInt = true) → c.dtype = .int64) ∧
    ((∀ r ∈ data.tail, ((cellAt r j).isInt || (cellAt r j).isFloat || (cellAt r j).isNull) = true) →
      (∃ r ∈ data.tail, (cellAt r j).isFloat = true) → c.dtype = .float64) ∧
    ((∃ r ∈ data.tail, (cellAt r j).isText = true) → c.dtype = .string) := by
  obtain ⟨headerRow, rows, names, rfl, hn, hnd, hcase⟩ := convert_ok_cases _ _ hok
  simp only [List.tail_cons]
  rcases hcase with ⟨rfl, rfl⟩ | ⟨hw, rfl⟩
  · refine ⟨?_, ?_, ?_⟩
    · rintro _ ⟨r, hr, _⟩
      exact absurd hr (List.not_mem_nil r)
    · rintro _ ⟨r, hr, _⟩
      exact absurd hr (List.not_mem_nil r)
    · rintro ⟨r, hr, _⟩
      exact absurd hr (List.not_mem_nil r)
  · rw [show ({ columns := buildColumns rows names 0, height := rows.length } :
        DataFrame).columns = buildColumns rows names 0 from rfl] at hc
    rw [buildColumns_getElem?] at hc
    rcases Option.map_eq_some'.mp hc with ⟨nm, hnm, hcol⟩
    have hdt : c.dtype = inferDtype rows j := by
      rw [← hcol]
      simp [buildColumn]
    rw [hdt]
    exact ⟨inferDtype_int64 rows j, inferDtype_float64 rows j, inferDtype_string rows j⟩

/-- C1 counterexample: the single data cell of this grid is text that is
parseable as an integer, yet the inferred column type is string, not
integer, because polars never parses strings during construction. -/
theorem C1_counterexample :
    isIntegerLiteral "1" = true ∧
    convert_data_to_dataframe [[Cell.s "a"], [Cell.s "1"]] =
      .ok { columns := [{ name := "a", dtype := .string, values := [.s "1"] }],
            height := 1 } ∧
    DType.string ≠ DType.int64 := by
  refine ⟨rfl, by decide, by decide⟩

/-- C1 witness: on a concrete grid the three corrected inference rules
yield integer, floating-point and string columns. -/
theorem C1_type_inference_witness :
    convert_data_to_dataframe c1Grid = .ok c1Table ∧
    (c1Table.columns[0]?).map Column.dtype = some DType.int64 ∧
    (c1Table.columns[1]?).map Column.dtype = some DType.float64 ∧
    (c1Table.columns[2]?).map Column.dtype = some DType.string := by
  have hok : convert_data_to_dataframe c1Grid = .ok c1Table := by decide
  have h0 := (C1_type_inference c1Grid c1Table hok 0 _ rfl).1 (by decide) (by decide)
  have h1 := (C1_type_inference c1Grid c1Table hok 1 _ rfl).2.1 (by decide) (by decide)
  have h2 := (C1_type_inference c1Grid c1Table hok 2 _ rfl).2.2 (by decide)
  exact ⟨hok, congrArg some h0, congrArg some h1, congrArg some h2⟩

/-- C2 counterexample: a response with no values grid yields the empty
grid, and the Normalizer fails on it (the IndexError at data[0]) instead
of producing a well-defined empty table. -/
theorem C2_counterexample :
    convert_data_to_dataframe (get_sheet_data none) = .error .emptyGrid := rfl

/-- C2 (amended): for every source response denoting an empty or missing
range, the Source Reader returns the empty grid, and the Normalizer fails
on that empty grid with the empty-grid error rather than producing a
NormalizedTable. -/
theorem C2_empty_response (response : Option (List (List Cell)))
    (h : response = none ∨ response = some []) :
    get_sheet_data response = [] ∧
    convert_data_to_dataframe (get_sheet_data response) = .error .emptyGrid := by
  rcases h with rfl | rfl
  · exact ⟨rfl, rfl⟩
  · exact ⟨rfl, rfl⟩

/-- C2 witness: the amended statement at the response carrying an
explicitly empty grid. -/
theorem C2_empty_response_witness :
    get_sheet_data (some []) = [] ∧
    convert_data_to_dataframe (get_sheet_data (some [])) = .error .emptyGrid :=
  C2_empty_response (some []) (Or.inr rfl)

/-- C3 counterexample: a grid whose first data row is shorter than the
header is rejected with a shape error, so not every ragged grid succeeds
with null padding. -/
theorem C3_counterexample :
    convert_data_to_dataframe [[Cell.s "a", Cell.s "b"], [Cell.s "x"]] =
      .error .rowShapeMismatch := rfl

/-- C3 (amended): for every RawGrid whose header has distinct string
names, whose first data row has exactly the header's width and whose data
rows are never wider than the header, the Normalizer succeeds, and every
data row with fewer cells than the header gets its missing trailing cells
as empty (null) values. -/
theorem C3_ragged_rows (headerRow r0 : List Cell) (rest : List (List Cell))
    (names : List String)
    (hnames : headerNames headerRow = some names) (hnd : names.Nodup)
    (hr0 : r0.length = names.length)
    (hwide : ∀ r ∈ r0 :: rest, r.length ≤ names.length) :
    ∃ t, convert_data_to_dataframe (headerRow :: r0 :: rest) = .ok t ∧
      t.height = rest.length + 1 ∧
      ∀ (i j : Nat) (r : List Cell) (c : Column),
        (r0 :: rest)[i]? = some r → r.length ≤ j →
        t.columns[j]? = some c → c.values[i]? = some Cell.null := by
  refine ⟨{ columns := buildColumns (r0 :: rest) names 0, height := rest.length + 1 },
    ?_, rfl, ?_⟩
  · have hany : ¬ (((r0 :: rest).any fun r => decide (names.length < r.length)) = true) := by
      rw [List.any_eq_true]
      rintro ⟨r, hr, hlt⟩
      have h1 := hwide r hr
      have h2 := of_decide_eq_true hlt
      omega
    simp only [convert_data_to_dataframe, hnames]
    rw [if_neg (fun h => h hr0), if_neg hany, if_pos hnd]
    rfl
  · intro i j r c hi hlen hc
    rw [show ({ columns := buildColumns (r0 :: rest) names 0, height := rest.length + 1 } :
        DataFrame).columns = buildColumns (r0 :: rest) names 0 from rfl] at hc
    rw [buildColumns_getElem?] at hc
    rcases Option.map_eq_some'.mp hc with ⟨nm, hnm, hcol⟩
    have hcell : cellAt r (0 + j) = Cell.null := by
      rw [cellAt]
      apply List.getD_eq_default
      omega
    rw [← hcol]
    simp only [buildColumn]
    rw [List.getElem?_map, hi, Option.map_some', hcell]
    rfl

/-- C3 witness: a concrete ragged grid whose second data row is one cell
short succeeds with a null in the padded position. -/
theorem C3_ragged_rows_witness :
    ∃ t, convert_data_to_dataframe
        [[Cell.s "a", Cell.s "b"], [Cell.i 1, Cell.i 2], [Cell.i 3]] = .ok t ∧
      t.height = 2 ∧
      ∀ (i j : Nat) (r : List Cell) (c : Column),
        [[Cell.i 1, Cell.i 2], [Cell.i 3]][i]? = some r → r.length ≤ j →
        t.columns[j]? = some c → c.values[i]? = some Cell.null :=
  C3_ragged_rows [Cell.s "a", Cell.s "b"] [Cell.i 1, Cell.i 2] [[Cell.i 3]]
    ["a", "b"] rfl (by decide) rfl (by decide)

/-- C4 counterexample: a header-only grid with a duplicated column name
fails with a duplicate-column error instead of producing a zero-row
table. -/
theorem C4_counterexample :
    convert_data_to_dataframe [[Cell.s "a", Cell.s "a"]] = .error .duplicateColumn := rfl

/-- C4 (amended): the Normalizer fails with the empty-grid error exactly
on the grid with zero rows, and every header-only grid whose column names
are distinct strings succeeds with a zero-row table. -/
theorem C4_empty_source :
    (∀ data, convert_data_to_dataframe data = .error .emptyGrid ↔ data = []) ∧
    (∀ headerRow names, headerNames headerRow = some names → names.Nodup →
      convert_data_to_dataframe [headerRow] =
        .ok { columns := names.map fun n => { name := n, dtype := .null, values := [] },
              height := 0 }) := by
  constructor
  · intro data
    constructor
    · intro h
      cases data with
      | nil => rfl
      | cons headerRow rows =>
        exfalso
        simp only [convert_data_to_dataframe] at h
        split at h
        · simp at h
        · split at h
          · split at h
            · simp at h
            · simp at h
          · split at h
            · simp at h
            · split at h
              · simp at h
              · split at h
                · simp at h
                · simp at h
    · rintro rfl
      rfl
  · intro headerRow names hn hnd
    simp only [convert_data_to_dataframe, hn]
    rw [if_pos hnd]

/-- C4 witness: the empty grid fails with the empty-grid error, and a
concrete one-column header-only grid yields a zero-row table. -/
theorem C4_empty_source_witness :
    convert_data_to_dataframe [] = .error .emptyGrid ∧
    convert_data_to_dataframe [[Cell.s "id"]] =
      .ok { columns := [{ name := "id", dtype := .null, values := [] }], height := 0 } :=
  ⟨(C4_empty_source.1 []).mpr rfl,
   C4_empty_source.2 [Cell.s "id"] ["id"] rfl (by decide)⟩

/-- C5: the Schema Mapper is a total function on dtypes with the fixed
mapping integer to INTEGER, floating-point to FLOAT, boolean to BOOLEAN,
datetime to DATETIME, date to DATE and everything else to STRING, and it
produces one field per column of any NormalizedTable. -/
theorem C5_schema_mapping :
    field_type .int64 = "INTEGER" ∧ field_type .float64 = "FLOAT" ∧
    field_type .boolean = "BOOLEAN" ∧ field_type .datetime = "DATETIME" ∧
    field_type .date = "DATE" ∧
    (∀ d : DType, d ≠ .int64 → d ≠ .float64 → d ≠ .boolean → d ≠ .datetime →
      d ≠ .date → field_type d = "STRING") ∧
    (∀ df : DataFrame, (bq_schema df).length = df.columns.length) := by
  refine ⟨rfl, rfl, rfl, rfl, rfl, ?_, ?_⟩
  · intro d h1 h2 h3 h4 h5
    cases d <;> first | rfl | simp_all
  · intro df
    simp [bq_schema]

/-- C5 witness: the fallback of the mapping at the null and string
dtypes, and the arity of the schema of a concrete table. -/
theorem C5_schema_mapping_witness :
    field_type .null = "STRING" ∧ field_type .string = "STRING" ∧
    (bq_schema { columns := [{ name := "a", dtype := .string, values := [] }],
                 height := 0 }).length = 1 :=
  ⟨C5_schema_mapping.2.2.2.2.2.1 .null (by decide) (by decide) (by decide) (by decide)
      (by decide),
   C5_schema_mapping.2.2.2.2.2.1 .string (by decide) (by decide) (by decide) (by decide)
      (by decide),
   C5_schema_mapping.2.2.2.2.2.2
     { columns := [{ name := "a", dtype := .string, values := [] }], height := 0 }⟩

/-- C6: provisioning is idempotent. When the dataset and the table
already exist, each provisioner (invoked once, or twice in sequence)
performs no create call, leaves the remote state unchanged and raises no
error; when the fetch reports not-found the resource is created; and any
other fetch error propagates as a fatal error. -/
theorem C6_provisioning_idempotent :
    (∀ (st : BQState) (did : String), did ∈ st.datasets →
      create_dataset_if_not_exists none st did = .ok (st, []) ∧
      ((create_dataset_if_not_exists none st did).bind
        fun p => create_dataset_if_not_exists none p.1 did) = .ok (st, [])) ∧
    (∀ (st : BQState) (tid : String) (df : DataFrame), tid ∈ st.tables.map Prod.fst →
      create_table_if_not_exists none st tid df = .ok (st, []) ∧
      ((create_table_if_not_exists none st tid df).bind
        fun p => create_table_if_not_exists none p.1 tid df) = .ok (st, [])) ∧
    (∀ (st : BQState) (did : String), did ∉ st.datasets →
      create_dataset_if_not_exists none st did =
        .ok ({ st with datasets := did :: st.datasets }, [did])) ∧
    (∀ (st : BQState) (tid : String) (df : DataFrame), tid ∉ st.tables.map Prod.fst →
      create_table_if_not_exists none st tid df =
        .ok ({ st with tables := (tid, bq_schema df) :: st.tables }, [tid])) ∧
    (∀ (st : BQState) (did e : String),
      create_dataset_if_not_exists (some e) st did = .error e) ∧
    (∀ (st : BQState) (tid e : String) (df : DataFrame),
      create_table_if_not_exists (some e) st tid df = .error e) := by
  refine ⟨?_, ?_, ?_, ?_, ?_, ?_⟩
  · intro st did h
    have h1 : create_dataset_if_not_exists none st did = .ok (st, []) := by
      simp [create_dataset_if_not_exists, get_dataset, h]
    refine ⟨h1, ?_⟩
    rw [h1]
    exact h1
  · intro st tid df h
    have h1 : create_table_if_not_exists none st tid df = .ok (st, []) := by
      simp [create_table_if_not_exists, get_table, h]
    refine ⟨h1, ?_⟩
    rw [h1]
    exact h1
  · intro st did h
    simp [create_dataset_if_not_exists, get_dataset, h]
  · intro st tid df h
    simp [create_table_if_not_exists, get_table, h]
  · intro st did e
    rfl
  · intro st tid e df
    rfl

/-- C6 witness: a concrete warehouse state already holding the dataset
and the table, on which both provisioners (once and twice) are no-ops,
plus a concrete creation and a concrete propagated fetch failure. -/
theorem C6_provisioning_idempotent_witness :
    create_dataset_if_not_exists none { datasets := ["p.d"], tables := [("p.d.t", [])] }
      "p.d" = .ok ({ datasets := ["p.d"], tables := [("p.d.t", [])] }, []) ∧
    create_table_if_not_exists none { datasets := ["p.d"], tables := [("p.d.t", [])] }
      "p.d.t" { columns := [], height := 0 } =
      .ok ({ datasets := ["p.d"], tables := [("p.d.t", [])] }, []) ∧
    create_dataset_if_not_exists none { datasets := [], tables := [] } "p.d" =
      .ok ({ datasets := ["p.d"], tables := [] }, ["p.d"]) ∧
    create_dataset_if_not_exists (some "boom") { datasets := ["p.d"], tables := [] }
      "p.d" = .error "boom" :=
  ⟨(C6_provisioning_idempotent.1 _ _ (by decide)).1,
   (C6_provisioning_idempotent.2.1 _ _ { columns := [], height := 0 } (by decide)).1,
   C6_provisioning_idempotent.2.2.1 _ _ (by decide),
   C6_provisioning_idempotent.2.2.2.2.1 _ _ _⟩

/-- C7 counterexample: a non-empty header with a duplicated name and zero
data rows fails with a duplicate-column error instead of producing a
table. -/
theorem C7_counterexample :
    convert_data_to_dataframe [[Cell.s "x", Cell.s "x", Cell.s "y"]] =
      .error .duplicateColumn := rfl

/-- C7 (amended): for every RawGrid with a non-empty header of distinct
string names and zero data rows, the Normalizer produces a table whose
column names equal the header in order with zero rows, and the Schema
Mapper yields a schema with exactly one field per header column. -/
theorem C7_header_only (headerRow : List Cell) (names : List String)
    (hnames : headerNames headerRow = some names) (_hne : names ≠ [])
    (hnd : names.Nodup) :
    ∃ t, convert_data_to_dataframe [headerRow] = .ok t ∧
      t.columns.map Column.name = names ∧ t.height = 0 ∧
      (bq_schema t).length = names.length := by
  refine Exists.intro
    { columns := names.map (fun n => { name := n, dtype := .null, values := [] }),
      height := 0 }
    ⟨?_, ?_, rfl, ?_⟩
  · simp only [convert_data_to_dataframe, hnames]
    rw [if_pos hnd]
  · simp [List.map_map, Function.comp_def]
  · simp [bq_schema]

/-- C7 witness: the header of the end-to-end scenario of the spec. -/
theorem C7_header_only_witness :
    ∃ t, convert_data_to_dataframe [[Cell.s "id", Cell.s "name", Cell.s "score"]] =
      .ok t ∧
      t.columns.map Column.name = ["id", "name", "score"] ∧ t.height = 0 ∧
      (bq_schema t).length = ["id", "name", "score"].length :=
  C7_header_only [Cell.s "id", Cell.s "name", Cell.s "score"] ["id", "name", "score"]
    rfl (by decide) (by decide)

/-- C8: for every NormalizedTable, destination and remote outcome, the
Loader submits exactly one load job, configured with autodetect enabled
and the WRITE_APPEND disposition, appending exactly the table's rows, and
its return value is the job's terminal outcome: it returns cleanly if and
only if the remote job succeeded. -/
theorem C8_loader (df : DataFrame) (table_id : String) (outcome : JobOutcome) :
    (upload_to_bigquery outcome df table_id).1 =
      [{ config := { autodetect := true, write_disposition := "WRITE_APPEND" },
         destination := table_id, rowCount := df.height }] ∧
    ((upload_to_bigquery outcome df table_id).2 = .ok () ↔ outcome = .done) := by
  refine ⟨rfl, ?_⟩
  cases outcome with
  | done => simp [upload_to_bigquery]
  | failedJob e => simp [upload_to_bigquery]

/-- C8 witness: the loader statement at a concrete table, destination and
outcome. -/
theorem C8_loader_witness :
    (upload_to_bigquery .done { columns := [], height := 3 } "p.d.t").1 =
      [{ config := { autodetect := true, write_disposition := "WRITE_APPEND" },
         destination := "p.d.t", rowCount := 3 }] ∧
    ((upload_to_bigquery .done { columns := [], height := 3 } "p.d.t").2 = .ok () ↔
      JobOutcome.done = .done) :=
  C8_loader { columns := [], height := 3 } "p.d.t" .done

/-- C9: for every destination identifier splitting into exactly the three
dot-separated segments project, dataset and table, the derived dataset
identifier is the first two segments joined by a dot. -/
theorem C9_dataset_id (table_id p d t : String)
    (h : split_dot table_id = [p, d, t]) :
    dataset_id_of table_id = p ++ "." ++ d := by
  rw [dataset_id_of, h]
  rfl

/-- C9 witness: the concrete destination identifier of the program. -/
theorem C9_dataset_id_witness :
    dataset_id_of "gsbq-demo.gsbq_dataset.sample_table" = "gsbq-demo.gsbq_dataset" :=
  C9_dataset_id "gsbq-demo.gsbq_dataset.sample_table" "gsbq-demo" "gsbq_dataset"
    "sample_table" (by decide)

/-- C10: for every RawGrid whose header row contains a duplicated column
name, the Normalizer raises an error rather than producing a table. -/
theorem C10_duplicate_header (headerRow : List Cell) (rows : List (List Cell))
    (names : List String) (hnames : headerNames headerRow = some names)
    (hdup : ¬ names.Nodup) :
    ∃ e, convert_data_to_dataframe (headerRow :: rows) = .error e := by
  cases hres : convert_data_to_dataframe (headerRow :: rows) with
  | error e => exact ⟨e, rfl⟩
  | ok t =>
    exfalso
    obtain ⟨h2, r2, n2, heq, hn2, hnd2, _⟩ := convert_ok_cases _ _ hres
    injection heq with e1 e2
    subst e1
    rw [hnames] at hn2
    injection hn2 with e3
    subst e3
    exact hdup hnd2

/-- C10 witness: a concrete grid with a duplicated header name and one
data row fails. -/
theorem C10_duplicate_header_witness :
    ∃ e, convert_data_to_dataframe
      [[Cell.s "a", Cell.s "a"], [Cell.s "1", Cell.s "2"]] = .error e :=
  C10_duplicate_header [Cell.s "a", Cell.s "a"] [[Cell.s "1", Cell.s "2"]] ["a", "a"]
    rfl (by decide)

end Gsbq
